import Mathlib

/-!
Formal model of the harmonization / validation / quality-report subsystem of
the forecast pipeline (files data_harmonizer.py, data_validator.py,
quality_checker.py).  Python's loosely typed scalar values are modelled by
the inductive type PyVal (null, string, or number, with numbers modelled as
exact rationals); dictionaries with a fixed key set are modelled as
structures, and insertion-ordered dictionaries with dynamic keys as
association lists.  Machine floats are modelled as rationals, so float
arithmetic is exact here; Python's round (banker's rounding) is modelled
exactly on rationals.  The two genuinely external ingredients - the ISO-8601
datetime parser (datetime.fromisoformat) and the Weather Underground
multi-format timestamp cascade (_parse_timestamp) - are taken as explicit
function parameters, since no claim depends on the inner workings of either;
instants are modelled as integer seconds.  The nondeterministic
metadata.ingestion_timestamp section is omitted: no claim mentions it.
-/

set_option maxRecDepth 4000

namespace Forecast

/-- A Python scalar value as it appears in the loosely typed records:
None, a string, or a number (int/float, modelled as an exact rational). -/
inductive PyVal where
  | none
  | str (s : String)
  | num (q : Rat)
deriving Repr, DecidableEq

/-- Python truthiness of a scalar: None, the empty string and 0 are falsy. -/
def PyVal.truthy : PyVal → Bool
  | PyVal.none => false
  | PyVal.str s => s != ""
  | PyVal.num q => q != 0

/-- Python str() of a scalar.  For numbers the rendering differs from
CPython's repr; it is only ever fed to the abstract ISO parser, for which it
is an opaque key. -/
def py_str : PyVal → String
  | PyVal.none => "None"
  | PyVal.str s => s
  | PyVal.num q => toString q

/-- Uppercasing of a string, character by character (models str.upper on the
ASCII tokens this pipeline compares against). -/
def upper (s : String) : String :=
  String.mk (s.data.map Char.toUpper)

/-- Strip leading and trailing whitespace from a character list (models the
whitespace stripping Python's float() applies to its string argument). -/
def strip_chars (l : List Char) : List Char :=
  ((l.dropWhile Char.isWhitespace).reverse.dropWhile Char.isWhitespace).reverse

/-- Numeric value of a list of decimal digit characters. -/
def digits_val (l : List Char) : Nat :=
  l.foldl (fun a c => a * 10 + (c.toNat - 48)) 0

/-- Parse an unsigned decimal mantissa (digits, optionally with one decimal
point; at least one digit required), as accepted by Python's float().  When
the list has no decimal point the whole list is the integer part. -/
def parse_mantissa (l : List Char) : Option Rat :=
  match l.dropWhile (fun c => c != '.') with
  | [] =>
    if l ≠ [] ∧ l.all Char.isDigit then some ((digits_val l : Nat) : Rat)
    else Option.none
  | _ :: fp =>
    if (l.takeWhile (fun c => c != '.') ≠ [] ∨ fp ≠ []) ∧
        (l.takeWhile (fun c => c != '.')).all Char.isDigit ∧ fp.all Char.isDigit then
      some (((digits_val (l.takeWhile (fun c => c != '.')) : Nat) : Rat) +
        ((digits_val fp : Nat) : Rat) / (10 : Rat) ^ fp.length)
    else Option.none

/-- Parse an optionally signed decimal exponent (for the e/E part). -/
def parse_exponent (l : List Char) : Option Int :=
  match l with
  | '+' :: ds =>
    if ds ≠ [] ∧ ds.all Char.isDigit then some ((digits_val ds : Nat) : Int) else Option.none
  | '-' :: ds =>
    if ds ≠ [] ∧ ds.all Char.isDigit then some (-((digits_val ds : Nat) : Int)) else Option.none
  | ds =>
    if ds ≠ [] ∧ ds.all Char.isDigit then some ((digits_val ds : Nat) : Int) else Option.none

/-- Parse an unsigned float literal: mantissa with an optional e/E exponent.
When there is no exponent marker the whole list is the mantissa. -/
def parse_unsigned_float (l : List Char) : Option Rat :=
  match l.dropWhile (fun c => c != 'e' && c != 'E') with
  | [] => parse_mantissa l
  | _ :: ex =>
    match parse_mantissa (l.takeWhile (fun c => c != 'e' && c != 'E')),
        parse_exponent ex with
    | some q, some e => some (q * (10 : Rat) ^ e)
    | _, _ => Option.none

/-- Model of Python's float(s) on a string: surrounding whitespace is
stripped, then an optionally signed decimal literal with optional exponent is
accepted.  (The inf/nan spellings and digit-group underscores accepted by
CPython are not representable as finite rationals / not used by this
pipeline's data and are rejected here.) -/
def parse_py_float (s : String) : Option Rat :=
  match strip_chars s.data with
  | '+' :: rest => parse_unsigned_float rest
  | '-' :: rest => (parse_unsigned_float rest).map (fun q => -q)
  | l => parse_unsigned_float l

/-- Model of DataHarmonizer._to_float: None and the empty string give None,
otherwise float() is attempted and failures give None. -/
def to_float : PyVal → Option Rat
  | PyVal.none => Option.none
  | PyVal.str s => if s = "" then Option.none else parse_py_float s
  | PyVal.num q => some q

/-- Python's int() on a float value truncates toward zero. -/
def py_trunc (q : Rat) : Int := if q < 0 then ⌈q⌉ else ⌊q⌋

/-- Model of DataHarmonizer._to_int: int(float(value)) with None on failure. -/
def to_int : PyVal → Option Int
  | PyVal.none => Option.none
  | PyVal.str s => if s = "" then Option.none else (parse_py_float s).map py_trunc
  | PyVal.num q => some (py_trunc q)

/-- A value/unit pair, the unified representation of one physical quantity. -/
structure Measurement where
  value : Option Rat
  unit : String
deriving Repr, DecidableEq

/-- Model of DataHarmonizer._create_measurement.  The source tests
value is None or value == "" or str(value).upper() in ["N/A", "NULL", "NONE"];
for a number, str(value) is a numeral and never one of those tokens, so the
token test only bites on strings. -/
def create_measurement (value : PyVal) (unit : String) : Measurement :=
  let null_like : Bool :=
    match value with
    | PyVal.none => true
    | PyVal.str s => (s == "") || (upper s == "N/A") || (upper s == "NULL") || (upper s == "NONE")
    | PyVal.num _ => false
  if null_like then { value := Option.none, unit := unit }
  else
    match value with
    | PyVal.num q => { value := some q, unit := unit }
    | PyVal.str s => { value := parse_py_float s, unit := unit }
    | PyVal.none => { value := Option.none, unit := unit }

/-- One entry of a document's measurements mapping: either a proper
Measurement dict, or a raw non-dict value copied verbatim from the source
record (the isinstance(..., dict) checks downstream distinguish the two). -/
inductive MEntry where
  | meas (m : Measurement)
  | raw (v : PyVal)
deriving Repr, DecidableEq

/-- Whether a measurements-mapping entry is a proper Measurement dict. -/
def MEntry.is_meas : MEntry → Bool
  | MEntry.meas _ => true
  | MEntry.raw _ => false

/-- Location sub-document of a unified document. -/
structure Location where
  latitude : Option Rat
  longitude : Option Rat
  elevation : Option Int
  city : PyVal
  country : PyVal
  region : PyVal
deriving Repr, DecidableEq

/-- GeoJSON-style point; coordinates are [longitude, latitude]. -/
structure GeoPoint where
  type : String
  coordinates : List Rat
deriving Repr, DecidableEq

/-- Station sub-document.  hardware/software are only populated by the
Weather Underground harmonizer; for InfoClimat the keys are absent, which is
conflated with None here (nothing reads them). -/
structure Station where
  id : PyVal
  name : PyVal
  network : PyVal
  type : PyVal
  location : Location
  location_geo : Option GeoPoint
  hardware : PyVal
  software : PyVal
deriving Repr, DecidableEq

/-- data_quality sub-document. -/
structure DataQuality where
  completeness_score : Option Rat
  missing_fields : List String
  validation_passed : Option Bool
  anomalies_detected : Bool
deriving Repr, DecidableEq

/-- The unified document produced by the harmonizer (metadata section
omitted: it is nondeterministic and no claim touches it). -/
structure UnifiedDocument where
  station : Station
  timestamp : PyVal
  measurements : List (String × MEntry)
  data_quality : DataQuality
deriving Repr, DecidableEq

/-- A raw source record, as handed to a harmonizer entry point.  Each field
models record.get(key) (absent conflated with None, exactly as .get does),
except station_type where the source uses .get("station_type", "unknown")
and absence (Option.none) therefore matters. -/
structure RawRecord where
  station_id : PyVal
  station_name : PyVal
  station_type : Option PyVal
  latitude : PyVal
  longitude : PyVal
  elevation : PyVal
  city : PyVal
  country : PyVal
  region : PyVal
  hardware : PyVal
  software : PyVal
  timestamp : PyVal
  measurements : List (String × PyVal)
deriving Repr, DecidableEq

/-- measurements.get(key): None when the key is absent. -/
def mget (m : List (String × PyVal)) (k : String) : PyVal :=
  (m.lookup k).getD PyVal.none

/-- Initial data_quality section written by both harmonizers. -/
def initial_quality : DataQuality :=
  { completeness_score := Option.none, missing_fields := [],
    validation_passed := Option.none, anomalies_detected := false }

/-- Model of DataHarmonizer.harmonize_infoclimat.  The raw timestamp is
passed through verbatim; every measurements entry is wrapped by
_create_measurement. -/
def harmonize_infoclimat (record : RawRecord) : UnifiedDocument :=
  let ms := record.measurements
  let lat := to_float record.latitude
  let lon := to_float record.longitude
  let location : Location :=
    { latitude := lat, longitude := lon, elevation := to_int record.elevation,
      city := record.city, country := record.country, region := record.region }
  let location_geo : Option GeoPoint :=
    match lat, lon with
    | some la, some lo => some { type := "Point", coordinates := [lo, la] }
    | _, _ => Option.none
  { station :=
      { id := record.station_id, name := record.station_name,
        network := PyVal.str "InfoClimat",
        type := record.station_type.getD (PyVal.str "unknown"),
        location := location, location_geo := location_geo,
        hardware := PyVal.none, software := PyVal.none },
    timestamp := record.timestamp,
    measurements :=
      [ ("temperature", MEntry.meas (create_measurement (mget ms "temperature") "°C")),
        ("humidity", MEntry.meas (create_measurement (mget ms "humidite") "%")),
        ("pressure", MEntry.meas (create_measurement (mget ms "pression") "hPa")),
        ("dewpoint", MEntry.meas (create_measurement (mget ms "point_de_rosee") "°C")),
        ("wind_speed", MEntry.meas (create_measurement (mget ms "vent_moyen") "km/h")),
        ("wind_gust", MEntry.meas (create_measurement (mget ms "vent_rafales") "km/h")),
        ("wind_direction", MEntry.meas (create_measurement (mget ms "vent_direction") "degrees")),
        ("precipitation_1h", MEntry.meas (create_measurement (mget ms "pluie_1h") "mm")),
        ("precipitation_3h", MEntry.meas (create_measurement (mget ms "pluie_3h") "mm")),
        ("visibility", MEntry.meas (create_measurement (mget ms "visibilite") "m")),
        ("cloud_cover", MEntry.meas (create_measurement (mget ms "nebulosite") "octas")),
        ("snow_depth", MEntry.meas (create_measurement (mget ms "neige_au_sol") "cm")),
        ("weather_code", MEntry.meas (create_measurement (mget ms "temps_omm") "omm_code")) ],
    data_quality := initial_quality }

/-- Model of DataHarmonizer.harmonize_wunderground.  The multi-format
timestamp cascade _parse_timestamp is abstracted by the parse_ts parameter
(only its early return None on a None input is kept concrete); note that the
wind_direction entry is copied verbatim from the raw record, NOT wrapped by
_create_measurement. -/
def harmonize_wunderground (parse_ts : PyVal → Option String) (record : RawRecord) :
    UnifiedDocument :=
  let ms := record.measurements
  let lat := to_float record.latitude
  let lon := to_float record.longitude
  let location : Location :=
    { latitude := lat, longitude := lon, elevation := to_int record.elevation,
      city := record.city, country := record.country, region := record.region }
  let location_geo : Option GeoPoint :=
    match lat, lon with
    | some la, some lo => some { type := "Point", coordinates := [lo, la] }
    | _, _ => Option.none
  let ts : PyVal :=
    match record.timestamp with
    | PyVal.none => PyVal.none
    | t => match parse_ts t with
           | some s => PyVal.str s
           | Option.none => PyVal.none
  { station :=
      { id := record.station_id, name := record.station_name,
        network := PyVal.str "WeatherUnderground",
        type := PyVal.str "amateur",
        location := location, location_geo := location_geo,
        hardware := record.hardware, software := record.software },
    timestamp := ts,
    measurements :=
      [ ("temperature", MEntry.meas (create_measurement (mget ms "temperature") "°C")),
        ("humidity", MEntry.meas (create_measurement (mget ms "humidity") "%")),
        ("pressure", MEntry.meas (create_measurement (mget ms "pressure") "hPa")),
        ("dewpoint", MEntry.meas (create_measurement (mget ms "dewpoint") "°C")),
        ("wind_speed", MEntry.meas (create_measurement (mget ms "wind_speed") "km/h")),
        ("wind_gust", MEntry.meas (create_measurement (mget ms "wind_gust") "km/h")),
        ("wind_direction", MEntry.raw (mget ms "wind_direction")),
        ("precipitation_rate", MEntry.meas (create_measurement (mget ms "precip_rate") "mm/h")),
        ("precipitation_accumulated", MEntry.meas (create_measurement (mget ms "precip_accum") "mm")),
        ("uv_index", MEntry.meas (create_measurement (mget ms "uv_index") "index")),
        ("solar_radiation", MEntry.meas (create_measurement (mget ms "solar_radiation") "W/m²")) ],
    data_quality := initial_quality }

/-- Result of the abstracted datetime.fromisoformat parse: the wall-clock
instant in integer seconds, plus the parsed UTC offset in seconds when the
value carried timezone information (Option.none models a naive value). -/
structure IsoParse where
  wall : Int
  tzOffset : Option Int
deriving Repr, DecidableEq

/-- UTC instant of a parsed datetime; a naive value is interpreted as UTC
(models dt.replace with tzinfo utc when dt.tzinfo is None). -/
def utc_instant (p : IsoParse) : Int := p.wall - p.tzOffset.getD 0

/-- Model of DataValidator._validate_timestamp.  The parse_iso parameter
abstracts datetime.fromisoformat applied to str(timestamp) with a trailing Z
already rewritten to +00:00; Option.none models the parse raising, which the
source catches and converts into an error entry (the exception text appended
by the source is dropped from the message model). -/
def validate_timestamp (parse_iso : String → Option IsoParse) (now : Int)
    (timestamp : PyVal) : List String × List String :=
  if !timestamp.truthy then ([], [])
  else
    match parse_iso (py_str timestamp) with
    | Option.none => (["Timestamp invalide: " ++ py_str timestamp], [])
    | some p =>
      let dt := utc_instant p
      let errors := if now < dt then ["Timestamp dans le futur: " ++ py_str timestamp] else []
      let warnings :=
        if dt < now - 365 * 86400 then ["Timestamp ancien (> 1 an): " ++ py_str timestamp] else []
      (errors, warnings)

/-- Model of DataValidator._validate_required_fields: station.id, name and
network and the document timestamp are truthiness checks, while latitude and
longitude are compared against None only (a 0 coordinate passes). -/
def validate_required_fields (record : UnifiedDocument) : List String :=
  let station := record.station
  (if !station.id.truthy then ["Champ obligatoire manquant: station.id"] else []) ++
  (if !station.name.truthy then ["Champ obligatoire manquant: station.name"] else []) ++
  (if !station.network.truthy then ["Champ obligatoire manquant: station.network"] else []) ++
  (if station.location.latitude.isNone then
     ["Champ obligatoire manquant: station.location.latitude"] else []) ++
  (if station.location.longitude.isNone then
     ["Champ obligatoire manquant: station.location.longitude"] else []) ++
  (if !record.timestamp.truthy then ["Champ obligatoire manquant: timestamp"] else [])

/-- Model of DataValidator._validate_location. -/
def validate_location (location : Location) : List String :=
  (match location.latitude with
   | some lat =>
     if -90 ≤ lat ∧ lat ≤ 90 then []
     else ["Latitude hors limites: " ++ toString lat ++ " (doit être entre -90 et 90)"]
   | Option.none => []) ++
  (match location.longitude with
   | some lon =>
     if -180 ≤ lon ∧ lon ≤ 180 then []
     else ["Longitude hors limites: " ++ toString lon ++ " (doit être entre -180 et 180)"]
   | Option.none => []) ++
  (match location.elevation with
   | some e =>
     if -500 ≤ e ∧ e ≤ 9000 then []
     else ["Élévation improbable: " ++ toString e ++ "m"]
   | Option.none => [])

/-- The VALID_RANGES table of the validator (inclusive bounds). -/
def VALID_RANGES : List (String × Rat × Rat) :=
  [ ("temperature", -50, 60), ("humidity", 0, 100), ("pressure", 900, 1100),
    ("dewpoint", -60, 50), ("wind_speed", 0, 250), ("wind_gust", 0, 400),
    ("wind_direction", 0, 360), ("precipitation_1h", 0, 300),
    ("precipitation_3h", 0, 500), ("precipitation_rate", 0, 500),
    ("visibility", 0, 100000), ("cloud_cover", 0, 8), ("snow_depth", 0, 1000),
    ("uv_index", 0, 15), ("solar_radiation", 0, 1500) ]

/-- Range warning for one measurements-mapping entry: non-dict entries and
null values are skipped, and only names present in VALID_RANGES are checked. -/
def range_warning (name : String) (e : MEntry) : List String :=
  match e with
  | MEntry.raw _ => []
  | MEntry.meas m =>
    match m.value with
    | Option.none => []
    | some v =>
      match VALID_RANGES.lookup name with
      | Option.none => []
      | some (lo, hi) =>
        if lo ≤ v ∧ v ≤ hi then []
        else [name ++ " hors plage normale: " ++ toString v ++ " (attendu entre " ++
              toString lo ++ " et " ++ toString hi ++ ")"]

/-- measurements.get(key, dict()).get("value") for the cross-field checks.
(If the key held a non-dict entry the source would raise AttributeError; on
harmonized documents these four keys are always dicts, and the model treats a
non-dict like an absent key.) -/
def meas_value (ms : List (String × MEntry)) (k : String) : Option Rat :=
  match ms.lookup k with
  | some (MEntry.meas m) => m.value
  | _ => Option.none

/-- Model of DataValidator._validate_measurements: per-entry range warnings
in mapping order, then the dewpoint/temperature and gust/wind-speed
consistency warnings. -/
def validate_measurements (ms : List (String × MEntry)) : List String :=
  let range_warnings := (ms.map (fun kv => range_warning kv.1 kv.2)).flatten
  let dew_warn :=
    match meas_value ms "temperature", meas_value ms "dewpoint" with
    | some t, some d =>
      if t < d then
        ["Point de rosée (" ++ toString d ++ "°C) > température (" ++ toString t ++ "°C)"]
      else []
    | _, _ => []
  let gust_warn :=
    match meas_value ms "wind_speed", meas_value ms "wind_gust" with
    | some s, some g =>
      if g < s then
        ["Rafales (" ++ toString g ++ " km/h) < vent moyen (" ++ toString s ++ " km/h)"]
      else []
    | _, _ => []
  range_warnings ++ dew_warn ++ gust_warn

/-- Python's round() on an exact rational: round half to even at the given
number of decimal digits. -/
def py_round (q : Rat) (ndigits : Nat) : Rat :=
  let p : Rat := (10 : Rat) ^ ndigits
  let t : Rat := q * p
  let f : Int := ⌊t⌋
  let r : Rat := t - (f : Rat)
  let n : Int :=
    if r < 1/2 then f
    else if 1/2 < r then f + 1
    else if f % 2 = 0 then f else f + 1
  (n : Rat) / p

/-- Model of DataValidator._calculate_completeness: count the dict-valued
measurement entries and the filled ones among them with one pass, then the
rounded ratio (0 when there is no dict-valued entry). -/
def calculate_completeness (record : UnifiedDocument) : Rat :=
  let counts :=
    record.measurements.foldl
      (fun (tf : Nat × Nat) kv =>
        match kv.2 with
        | MEntry.meas m => (tf.1 + 1, tf.2 + (if m.value.isSome then 1 else 0))
        | MEntry.raw _ => tf)
      (0, 0)
  if counts.1 = 0 then 0
  else py_round ((counts.2 : Rat) / (counts.1 : Rat)) 3

/-- Model of DataValidator._get_missing_fields: names of dict-valued
measurement entries whose value is null, in mapping order. -/
def get_missing_fields (record : UnifiedDocument) : List String :=
  record.measurements.filterMap
    (fun kv =>
      match kv.2 with
      | MEntry.meas m => if m.value.isNone then some kv.1 else Option.none
      | MEntry.raw _ => Option.none)

/-- Validation verdict returned by DataValidator.validate. -/
structure ValidationResult where
  is_valid : Bool
  errors : List String
  warnings : List String
deriving Repr, DecidableEq

/-- Model of DataValidator.validate.  The source mutates the record's
data_quality in place before the strict-mode promotion and returns the
verdict; here the annotated record is returned alongside the verdict.
strict_mode comes from the configuration, parse_iso/now abstract
datetime.fromisoformat and the current UTC time. -/
def validate (strict_mode : Bool) (parse_iso : String → Option IsoParse) (now : Int)
    (record : UnifiedDocument) : ValidationResult × UnifiedDocument :=
  let errors0 := validate_required_fields record
  let tw := validate_timestamp parse_iso now record.timestamp
  let errors1 := errors0 ++ tw.1
  let warnings0 := tw.2
  let errors2 := errors1 ++ validate_location record.station.location
  let warnings1 := warnings0 ++ validate_measurements record.measurements
  let completeness_score := calculate_completeness record
  let dq : DataQuality :=
    { completeness_score := some completeness_score,
      missing_fields := get_missing_fields record,
      validation_passed := some errors2.isEmpty,
      anomalies_detected := !warnings1.isEmpty }
  let promoted :=
    if strict_mode && !warnings1.isEmpty then (errors2 ++ warnings1, ([] : List String))
    else (errors2, warnings1)
  ({ is_valid := promoted.1.isEmpty, errors := promoted.1, warnings := promoted.2 },
   { record with data_quality := dq })

/-- Run statistics handed to the quality checker; each field models
stats.get(key) (Option.none for an absent key). -/
structure RunStats where
  start_time : Option String
  end_time : Option String
  duration_seconds : Option Rat
  records_extracted : Option Nat
  records_transformed : Option Nat
  records_validated : Option Nat
  records_loaded : Option Nat
  records_rejected : Option Nat
  errors : Option (List String)
deriving Repr, DecidableEq

/-- execution_info section of a quality report; timestamp is the current
UTC time rendered by the caller (datetime.utcnow().isoformat()), passed in
as a parameter because it is nondeterministic. -/
structure ExecutionInfo where
  start_time : Option String
  end_time : Option String
  duration_seconds : Option Rat
  timestamp : String
deriving Repr, DecidableEq

/-- summary section; records_transformed and rejection_rate are keys only
the non-empty report carries (Option.none models the absent key). -/
structure Summary where
  total_records_processed : Nat
  records_transformed : Option Nat
  records_validated : Nat
  records_loaded : Nat
  records_rejected : Nat
  rejection_rate : Option Rat
deriving Repr, DecidableEq

/-- Per-station aggregation state (the defaultdict value). -/
structure StationAcc where
  network : PyVal
  station_name : PyVal
  records : Nat
  completeness_scores : List Rat
  anomalies : Nat
  location : Option Location
deriving Repr, DecidableEq

/-- Per-station entry of the final report. -/
structure StationStats where
  network : PyVal
  station_name : PyVal
  records : Nat
  avg_completeness : Rat
  anomalies : Nat
  location : Option Location
deriving Repr, DecidableEq

/-- Per-network aggregation state (the defaultdict value; stations models
the set of distinct station ids, only its size is ever read). -/
structure NetworkAcc where
  records : Nat
  stations : List PyVal
  completeness_scores : List Rat
deriving Repr, DecidableEq

/-- Per-network entry of the final report. -/
structure NetworkStats where
  records : Nat
  stations_count : Nat
  avg_completeness : Rat
deriving Repr, DecidableEq

/-- Per-field entry of the field_completeness section. -/
structure FieldStats where
  completeness : Rat
  filled_count : Nat
  total_count : Nat
deriving Repr, DecidableEq

/-- temporal_analysis section.  The source renders the min/max datetimes
back to strings with isoformat; the model keeps the parsed values, since the
rendering is the inverse of the abstracted parser and no claim reads it. -/
structure TemporalStats where
  min_timestamp : Option IsoParse
  max_timestamp : Option IsoParse
  time_span_hours : Rat
  records_count : Nat
deriving Repr, DecidableEq

/-- data_quality_scores section; the two rate keys are only present when at
least one document carried a non-null completeness score. -/
structure QualityScores where
  avg_completeness : Rat
  min_completeness : Rat
  max_completeness : Rat
  validation_passed : Nat
  validation_passed_rate : Option Rat
  anomalies_detected : Nat
  anomalies_rate : Option Rat
deriving Repr, DecidableEq

/-- One entry of the anomalies section. -/
structure AnomalyEntry where
  record_index : Nat
  station_id : PyVal
  station_name : PyVal
  timestamp : PyVal
  missing_fields : List String
  completeness_score : Option Rat
deriving Repr, DecidableEq

/-- The quality report.  The aggregation sections are Option-valued because
the empty-batch report does not carry them at all. -/
structure QualityReport where
  execution_info : ExecutionInfo
  summary : Summary
  by_station : Option (List (PyVal × StationStats))
  by_network : Option (List (PyVal × NetworkStats))
  field_completeness : Option (List (String × FieldStats))
  temporal_analysis : Option TemporalStats
  data_quality_scores : Option QualityScores
  anomalies : Option (List AnomalyEntry)
  message : Option String
  errors : List String
deriving Repr, DecidableEq

/-- Insertion-ordered update of an association list, with a default for a
missing key (models one defaultdict access followed by mutation). -/
def update_assoc {κ β : Type} [DecidableEq κ] (k : κ) (d : β) (f : β → β) :
    List (κ × β) → List (κ × β)
  | [] => [(k, f d)]
  | (k2, v) :: rest =>
    if k2 = k then (k2, f v) :: rest else (k2, v) :: update_assoc k d f rest

/-- Model of QualityChecker._empty_report. -/
def empty_report (utc_now : String) (stats : RunStats) : QualityReport :=
  { execution_info :=
      { start_time := stats.start_time, end_time := stats.end_time,
        duration_seconds := stats.duration_seconds, timestamp := utc_now },
    summary :=
      { total_records_processed := 0, records_transformed := Option.none,
        records_validated := 0, records_loaded := 0, records_rejected := 0,
        rejection_rate := Option.none },
    by_station := Option.none, by_network := Option.none,
    field_completeness := Option.none, temporal_analysis := Option.none,
    data_quality_scores := Option.none, anomalies := Option.none,
    message := some "Aucune donnée à analyser",
    errors := stats.errors.getD [] }

/-- Model of QualityChecker._calculate_rejection_rate. -/
def calculate_rejection_rate (stats : RunStats) : Rat :=
  let total := stats.records_extracted.getD 0
  let rejected := stats.records_rejected.getD 0
  if total = 0 then 0
  else py_round ((rejected : Rat) / (total : Rat)) 4

/-- Mean of a score list as computed by the checker: sum/len when non-empty,
0 otherwise. -/
def scores_avg (scores : List Rat) : Rat :=
  if scores = [] then 0 else scores.sum / (scores.length : Rat)

/-- One step of the by-station defaultdict loop. -/
def station_step (acc : List (PyVal × StationAcc)) (r : UnifiedDocument) :
    List (PyVal × StationAcc) :=
  let station := r.station
  if station.id.truthy then
    update_assoc station.id
      { network := PyVal.none, station_name := PyVal.none, records := 0,
        completeness_scores := [], anomalies := 0, location := Option.none }
      (fun st =>
        { network := station.network, station_name := station.name,
          records := st.records + 1,
          completeness_scores :=
            st.completeness_scores ++
              (match r.data_quality.completeness_score with
               | some s => [s]
               | Option.none => []),
          anomalies := st.anomalies + (if r.data_quality.anomalies_detected then 1 else 0),
          location := some station.location })
      acc
  else acc

/-- Model of QualityChecker._analyze_by_station. -/
def analyze_by_station (records : List UnifiedDocument) : List (PyVal × StationStats) :=
  (records.foldl station_step []).map
    (fun kv =>
      (kv.1,
       { network := kv.2.network, station_name := kv.2.station_name,
         records := kv.2.records,
         avg_completeness := py_round (scores_avg kv.2.completeness_scores) 3,
         anomalies := kv.2.anomalies, location := kv.2.location }))

/-- One step of the by-network defaultdict loop. -/
def network_step (acc : List (PyVal × NetworkAcc)) (r : UnifiedDocument) :
    List (PyVal × NetworkAcc) :=
  let station := r.station
  if station.network.truthy then
    update_assoc station.network
      { records := 0, stations := [], completeness_scores := [] }
      (fun st =>
        { records := st.records + 1,
          stations :=
            if station.id.truthy ∧ station.id ∉ st.stations then st.stations ++ [station.id]
            else st.stations,
          completeness_scores :=
            st.completeness_scores ++
              (match r.data_quality.completeness_score with
               | some s => [s]
               | Option.none => []) })
      acc
  else acc

/-- Model of QualityChecker._analyze_by_network. -/
def analyze_by_network (records : List UnifiedDocument) : List (PyVal × NetworkStats) :=
  (records.foldl network_step []).map
    (fun kv =>
      (kv.1,
       { records := kv.2.records, stations_count := kv.2.stations.length,
         avg_completeness := py_round (scores_avg kv.2.completeness_scores) 3 }))

/-- One step of the field_completeness double loop: fold one document's
measurement entries into the per-field total/filled table. -/
def field_step (acc : List (String × (Nat × Nat))) (r : UnifiedDocument) :
    List (String × (Nat × Nat)) :=
  r.measurements.foldl
    (fun acc2 kv =>
      match kv.2 with
      | MEntry.meas m =>
        update_assoc kv.1 (0, 0)
          (fun tf => (tf.1 + 1, tf.2 + (if m.value.isSome then 1 else 0))) acc2
      | MEntry.raw _ => acc2)
    acc

/-- Model of QualityChecker._analyze_field_completeness. -/
def analyze_field_completeness (records : List UnifiedDocument) :
    List (String × FieldStats) :=
  (records.foldl field_step []).map
    (fun kv =>
      (kv.1,
       { completeness :=
           py_round (if 0 < kv.2.1 then (kv.2.2 : Rat) / (kv.2.1 : Rat) else 0) 3,
         filled_count := kv.2.2, total_count := kv.2.1 }))

/-- Model of QualityChecker._analyze_temporal_coverage.  The source sorts
the parsed datetimes and takes the two endpoints; the model takes the
first minimal and last maximal parse under the instant order, which is what
a stable sort's endpoints are. -/
def analyze_temporal_coverage (parse_iso : String → Option IsoParse)
    (records : List UnifiedDocument) : TemporalStats :=
  let tss :=
    records.filterMap
      (fun r => if r.timestamp.truthy then parse_iso (py_str r.timestamp) else Option.none)
  match tss with
  | [] =>
    { min_timestamp := Option.none, max_timestamp := Option.none,
      time_span_hours := 0, records_count := 0 }
  | t :: rest =>
    let min_ts := rest.foldl (fun a b => if utc_instant b < utc_instant a then b else a) t
    let max_ts := rest.foldl (fun a b => if utc_instant a ≤ utc_instant b then b else a) t
    { min_timestamp := some min_ts, max_timestamp := some max_ts,
      time_span_hours :=
        py_round (((utc_instant max_ts - utc_instant min_ts : Int) : Rat) / 3600) 2,
      records_count := tss.length }

/-- Model of QualityChecker._analyze_quality_scores.  When no document has a
non-null completeness score the section is the zeroed structure (the loop
counters are discarded) and the two rate keys are absent; otherwise the rates
divide the loop counters by the total number of documents. -/
def analyze_quality_scores (records : List UnifiedDocument) : QualityScores :=
  let validation_passed :=
    records.countP (fun r => r.data_quality.validation_passed.getD false)
  let anomalies_detected := records.countP (fun r => r.data_quality.anomalies_detected)
  let scores := records.filterMap (fun r => r.data_quality.completeness_score)
  match scores with
  | [] =>
    { avg_completeness := 0, min_completeness := 0, max_completeness := 0,
      validation_passed := 0, validation_passed_rate := Option.none,
      anomalies_detected := 0, anomalies_rate := Option.none }
  | s :: rest =>
    { avg_completeness := py_round ((s :: rest).sum / ((s :: rest).length : Rat)) 3,
      min_completeness := py_round (rest.foldl min s) 3,
      max_completeness := py_round (rest.foldl max s) 3,
      validation_passed := validation_passed,
      validation_passed_rate :=
        some (py_round ((validation_passed : Rat) / (records.length : Rat)) 3),
      anomalies_detected := anomalies_detected,
      anomalies_rate :=
        some (py_round ((anomalies_detected : Rat) / (records.length : Rat)) 3) }

/-- The anomalies-section entry built for one flagged document. -/
def anomaly_entry (i : Nat) (r : UnifiedDocument) : AnomalyEntry :=
  { record_index := i, station_id := r.station.id, station_name := r.station.name,
    timestamp := r.timestamp, missing_fields := r.data_quality.missing_fields,
    completeness_score := r.data_quality.completeness_score }

/-- Model of QualityChecker._detect_anomalies: one entry per enumerated
document whose anomalies_detected flag is truthy, capped at the first 100. -/
def detect_anomalies (records : List UnifiedDocument) : List AnomalyEntry :=
  let anomalies :=
    records.enum.filterMap
      (fun p =>
        if p.2.data_quality.anomalies_detected then some (anomaly_entry p.1 p.2)
        else Option.none)
  anomalies.take 100

/-- Model of QualityChecker.generate_report. -/
def generate_report (parse_iso : String → Option IsoParse) (utc_now : String)
    (records : List UnifiedDocument) (stats : RunStats) : QualityReport :=
  if records.isEmpty then empty_report utc_now stats
  else
    { execution_info :=
        { start_time := stats.start_time, end_time := stats.end_time,
          duration_seconds := stats.duration_seconds, timestamp := utc_now },
      summary :=
        { total_records_processed := stats.records_extracted.getD 0,
          records_transformed := some (stats.records_transformed.getD 0),
          records_validated := stats.records_validated.getD 0,
          records_loaded := stats.records_loaded.getD 0,
          records_rejected := stats.records_rejected.getD 0,
          rejection_rate := some (calculate_rejection_rate stats) },
      by_station := some (analyze_by_station records),
      by_network := some (analyze_by_network records),
      field_completeness := some (analyze_field_completeness records),
      temporal_analysis := some (analyze_temporal_coverage parse_iso records),
      data_quality_scores := some (analyze_quality_scores records),
      anomalies := some (detect_anomalies records),
      message := Option.none,
      errors := stats.errors.getD [] }

/-- Characters that can occur in a successfully parsed float literal once
surrounding whitespace has been stripped. -/
def float_char (c : Char) : Bool :=
  c == '.' || c == '+' || c == '-' || c == 'e' || c == 'E' || c.isDigit

lemma toUpper_of_isDigit {c : Char} (h : c.isDigit = true) : c.toUpper = c := by
  simp [Char.isDigit] at h
  simp [Char.toUpper, Char.toNat]
  intro h1 h2
  simp [UInt32.le_def, BitVec.le_def, UInt32.toNat] at h h1 h2
  omega

lemma toUpper_of_isWhitespace {c : Char} (h : c.isWhitespace = true) : c.toUpper = c := by
  simp [Char.isWhitespace] at h
  rcases h with ((rfl | rfl) | rfl) | rfl <;> decide

lemma dropWhile_head_false {α : Type} (p : α → Bool) (l : List α) :
    ∀ {r fp}, l.dropWhile p = r :: fp → p r = false := by
  induction l with
  | nil => intro r fp h; simp [List.dropWhile] at h
  | cons x xs ih =>
    intro r fp h
    by_cases hx : p x
    · rw [List.dropWhile_cons_of_pos hx] at h
      exact ih h
    · rw [List.dropWhile_cons_of_neg hx] at h
      cases h
      simpa using hx

lemma dropWhile_of_all_false {α : Type} {p : α → Bool} {l : List α}
    (h : ∀ c ∈ l, p c = false) : l.dropWhile p = l := by
  cases l with
  | nil => rfl
  | cons x xs =>
    rw [List.dropWhile_cons_of_neg]
    simp [h x (by simp)]

lemma strip_chars_of_no_ws {l : List Char} (h : ∀ c ∈ l, c.isWhitespace = false) :
    strip_chars l = l := by
  unfold strip_chars
  rw [dropWhile_of_all_false h, dropWhile_of_all_false, List.reverse_reverse]
  intro c hc
  exact h c (by simpa using hc)

lemma parse_mantissa_chars {l : List Char} {q : Rat} (h : parse_mantissa l = some q) :
    ∀ c ∈ l, (c.isDigit || c == '.') = true := by
  have hsplit : l.takeWhile (fun c => c != '.') ++ l.dropWhile (fun c => c != '.') = l :=
    List.takeWhile_append_dropWhile _ _
  unfold parse_mantissa at h
  split at h
  case h_1 heq =>
    split at h
    case isTrue hg =>
      intro c hc
      simp [List.all_eq_true.mp hg.2 c hc]
    case isFalse => simp at h
  case h_2 r fp heq =>
    split at h
    case isTrue hg =>
      intro c hc
      have hr : (r != '.') = false := dropWhile_head_false (fun c => c != '.') _ heq
      have hr2 : r = '.' := by simpa using hr
      rw [← hsplit, heq] at hc
      rcases List.mem_append.mp hc with hin | hin
      · simp [List.all_eq_true.mp hg.2.1 c hin]
      · rcases List.mem_cons.mp hin with rfl | hin
        · simp [hr2]
        · simp [List.all_eq_true.mp hg.2.2 c hin]
    case isFalse => simp at h

lemma parse_exponent_chars {l : List Char} {e : Int} (h : parse_exponent l = some e) :
    ∀ c ∈ l, (c.isDigit || c == '+' || c == '-') = true := by
  unfold parse_exponent at h
  split at h
  case h_1 ds =>
    split at h
    case isTrue hg =>
      intro c hc
      rcases List.mem_cons.mp hc with rfl | hc
      · simp
      · simp [List.all_eq_true.mp hg.2 c hc]
    case isFalse => simp at h
  case h_2 ds =>
    split at h
    case isTrue hg =>
      intro c hc
      rcases List.mem_cons.mp hc with rfl | hc
      · simp
      · simp [List.all_eq_true.mp hg.2 c hc]
    case isFalse => simp at h
  case h_3 ds h1 h2 =>
    split at h
    case isTrue hg =>
      intro c hc
      simp [List.all_eq_true.mp hg.2 c hc]
    case isFalse => simp at h

lemma parse_unsigned_float_chars {l : List Char} {q : Rat}
    (h : parse_unsigned_float l = some q) : ∀ c ∈ l, float_char c = true := by
  have hsplit :
      l.takeWhile (fun c => c != 'e' && c != 'E') ++
        l.dropWhile (fun c => c != 'e' && c != 'E') = l :=
    List.takeWhile_append_dropWhile _ _
  unfold parse_unsigned_float at h
  split at h
  case h_1 heq =>
    intro c hc
    have := parse_mantissa_chars h c hc
    simp [float_char] at this ⊢
    tauto
  case h_2 r ex heq =>
    split at h
    case h_1 qm em hm he =>
      intro c hc
      rw [← hsplit, heq] at hc
      rcases List.mem_append.mp hc with hin | hin
      · have := parse_mantissa_chars hm c hin
        simp [float_char] at this ⊢
        tauto
      · rcases List.mem_cons.mp hin with rfl | hin
        · have hr : (c != 'e' && c != 'E') = false :=
            dropWhile_head_false (fun x => x != 'e' && x != 'E') _ heq
          simp at hr
          by_cases hce : c = 'e'
          · subst hce; simp [float_char]
          · have hcE := hr hce
            subst hcE; simp [float_char]
        · have := parse_exponent_chars he c hin
          simp [float_char] at this ⊢
          tauto
    case h_2 => simp at h

lemma parse_py_float_chars {s : String} {q : Rat} (h : parse_py_float s = some q) :
    ∀ c ∈ strip_chars s.data, float_char c = true := by
  intro c hc
  unfold parse_py_float at h
  split at h
  case h_1 rest heq =>
    rw [heq] at hc
    rcases List.mem_cons.mp hc with rfl | hc
    · simp [float_char]
    · exact parse_unsigned_float_chars h c hc
  case h_2 rest heq =>
    rw [heq] at hc
    rcases Option.map_eq_some'.mp h with ⟨qm, hm, _⟩
    rcases List.mem_cons.mp hc with rfl | hc
    · simp [float_char]
    · exact parse_unsigned_float_chars hm c hc
  case h_3 =>
    exact parse_unsigned_float_chars h c hc

lemma float_char_toUpper {c : Char} (h : float_char c = true) :
    c.toUpper ≠ '/' ∧ c.toUpper ≠ 'U' ∧ c.toUpper ≠ 'O' := by
  simp [float_char] at h
  rcases h with ((((rfl | rfl) | rfl) | rfl) | rfl) | hd
  case inr =>
    rw [toUpper_of_isDigit hd]
    simp [Char.isDigit] at hd
    refine ⟨?_, ?_, ?_⟩ <;> rintro rfl <;> revert hd <;> decide
  all_goals decide

lemma upper_no_ws {s : String} {l : List Char} (h : s.data.map Char.toUpper = l)
    (hl : ∀ c ∈ l, c.isWhitespace = false) : ∀ c ∈ s.data, c.isWhitespace = false := by
  intro c hc
  by_contra hws
  simp at hws
  have hmem : c.toUpper ∈ l := h ▸ List.mem_map_of_mem Char.toUpper hc
  have := hl _ hmem
  rw [toUpper_of_isWhitespace hws] at this
  rw [this] at hws
  cases hws

lemma parse_not_null_token {s : String} {q : Rat} (hp : parse_py_float s = some q) :
    upper s ≠ "N/A" ∧ upper s ≠ "NULL" ∧ upper s ≠ "NONE" := by
  have key : ∀ bad : Char, bad = '/' ∨ bad = 'U' ∨ bad = 'O' →
      ∀ l : List Char, (∀ c ∈ l, c.isWhitespace = false) → bad ∈ l →
      upper s = String.mk l → False := by
    intro bad hbad l hlws hbadmem hup
    have hdata : s.data.map Char.toUpper = l := congrArg String.data hup
    have hnws := upper_no_ws hdata hlws
    have hgood := parse_py_float_chars hp
    rw [strip_chars_of_no_ws hnws] at hgood
    rcases List.mem_map.mp (hdata ▸ hbadmem) with ⟨c, hcmem, hctoUpper⟩
    have := float_char_toUpper (hgood c hcmem)
    rcases hbad with rfl | rfl | rfl
    · exact this.1 hctoUpper
    · exact this.2.1 hctoUpper
    · exact this.2.2 hctoUpper
  refine ⟨?_, ?_, ?_⟩ <;> intro hup
  · exact key '/' (by simp) ['N', '/', 'A'] (by decide) (by decide) hup
  · exact key 'U' (by simp) ['N', 'U', 'L', 'L'] (by decide) (by decide) hup
  · exact key 'O' (by simp) ['N', 'O', 'N', 'E'] (by decide) (by decide) hup

lemma create_measurement_unit (v : PyVal) (u : String) :
    (create_measurement v u).unit = u := by
  cases v with
  | none => rfl
  | num q => rfl
  | str s =>
    unfold create_measurement
    dsimp only
    split <;> rfl

lemma create_measurement_value_str (s : String) (u : String) :
    (create_measurement (PyVal.str s) u).value =
      if (s == "") || (upper s == "N/A") || (upper s == "NULL") || (upper s == "NONE") then
        Option.none
      else parse_py_float s := by
  unfold create_measurement
  dsimp only
  split <;> rfl

lemma parse_py_float_empty : parse_py_float "" = Option.none := by
  with_unfolding_all decide

/-- C5: the harmonizer's numeric coercion.  The resulting Measurement always
carries the supplied unit; its value is null exactly when the raw value is
null, the empty string, case-insensitively one of N/A, NULL, NONE, or a
string that does not parse as a float; every float-parseable raw value (a
number, or a numeric string such as "7.6") yields exactly that float; and
the coercion is a total function of the raw value (it never raises). -/
theorem create_measurement_coercion (v : PyVal) (u : String) :
    (create_measurement v u).unit = u ∧
    ((create_measurement v u).value = Option.none ↔
      (v = PyVal.none ∨ v = PyVal.str "" ∨
        (∃ s, v = PyVal.str s ∧
          (upper s = "N/A" ∨ upper s = "NULL" ∨ upper s = "NONE")) ∨
        (∃ s, v = PyVal.str s ∧ parse_py_float s = Option.none))) ∧
    (∀ q, v = PyVal.num q → (create_measurement v u).value = some q) ∧
    (∀ s q, v = PyVal.str s → parse_py_float s = some q →
      (create_measurement v u).value = some q) := by
  refine ⟨create_measurement_unit v u, ?_, ?_, ?_⟩
  · cases v with
    | none => simp [create_measurement]
    | num q => simp [create_measurement]
    | str s =>
      rw [create_measurement_value_str]
      by_cases h :
          ((s == "") || (upper s == "N/A") || (upper s == "NULL") || (upper s == "NONE")) = true
      · rw [if_pos h]
        simp at h
        constructor
        · intro _
          rcases h with ((rfl | ht) | ht) | ht
          · exact Or.inr (Or.inl rfl)
          · exact Or.inr (Or.inr (Or.inl ⟨s, rfl, Or.inl ht⟩))
          · exact Or.inr (Or.inr (Or.inl ⟨s, rfl, Or.inr (Or.inl ht)⟩))
          · exact Or.inr (Or.inr (Or.inl ⟨s, rfl, Or.inr (Or.inr ht)⟩))
        · intro _; rfl
      · rw [if_neg h]
        simp at h
        obtain ⟨⟨⟨hs, hna⟩, hnull⟩, hnone⟩ := h
        constructor
        · intro hval
          exact Or.inr (Or.inr (Or.inr ⟨s, rfl, hval⟩))
        · rintro (h1 | h1 | ⟨s2, h2, htok⟩ | ⟨s2, h2, hparse⟩)
          · cases h1
          · cases h1; exact absurd rfl hs
          · cases h2
            rcases htok with ht | ht | ht
            · exact absurd ht hna
            · exact absurd ht hnull
            · exact absurd ht hnone
          · cases h2; exact hparse
  · intro q hv
    subst hv; rfl
  · intro s q hv hq
    subst hv
    have htok := parse_not_null_token hq
    have hne : s ≠ "" := by
      rintro rfl
      rw [parse_py_float_empty] at hq
      cases hq
    rw [create_measurement_value_str, if_neg, hq]
    simp [hne, htok.1, htok.2.1, htok.2.2]

/-- C5 witness: the numeric string "7.6" is coerced to the float 7.6. -/
theorem create_measurement_coercion_witness :
    (create_measurement (PyVal.str "7.6") "°C").value = some (76 / 10 : Rat) :=
  (create_measurement_coercion (PyVal.str "7.6") "°C").2.2.2 "7.6" (76 / 10 : Rat) rfl
    (by with_unfolding_all decide)

/-- The InfoClimat sample record from the repository's harmonizer test. -/
def ic_sample : RawRecord :=
  { station_id := PyVal.str "07015", station_name := PyVal.str "Lille-Lesquin",
    station_type := some (PyVal.str "synop"),
    latitude := PyVal.num (50575 / 1000), longitude := PyVal.num (3092 / 1000),
    elevation := PyVal.num 47, city := PyVal.str "Lille", country := PyVal.str "France",
    region := PyVal.str "Hauts-de-France", hardware := PyVal.none, software := PyVal.none,
    timestamp := PyVal.str "2024-10-05 00:00:00",
    measurements :=
      [ ("temperature", PyVal.str "7.6"), ("pression", PyVal.str "1020.7"),
        ("humidite", PyVal.str "89"), ("point_de_rosee", PyVal.str "5.9"),
        ("visibilite", PyVal.str "6000"), ("vent_moyen", PyVal.str "3.6"),
        ("vent_rafales", PyVal.str "7.2"), ("vent_direction", PyVal.str "90"),
        ("pluie_1h", PyVal.str "0"), ("pluie_3h", PyVal.str "0"),
        ("neige_au_sol", PyVal.none), ("nebulosite", PyVal.str ""),
        ("temps_omm", PyVal.none) ] }

/-- The Weather Underground sample record from the repository's harmonizer
test (wind_direction is the cardinal string "West"). -/
def wu_sample : RawRecord :=
  { station_id := PyVal.str "IICHTE19", station_name := PyVal.str "WeerstationBS",
    station_type := Option.none,
    latitude := PyVal.num (51092 / 1000), longitude := PyVal.num (2999 / 1000),
    elevation := PyVal.num 15, city := PyVal.str "Ichtegem",
    country := PyVal.str "Belgium", region := PyVal.str "West-Vlaanderen",
    hardware := PyVal.str "other", software := PyVal.str "EasyWeatherV1.6.6",
    timestamp := PyVal.str "00:14:00",
    measurements :=
      [ ("temperature", PyVal.num 57), ("dewpoint", PyVal.num (528 / 10)),
        ("humidity", PyVal.num 86), ("wind_speed", PyVal.num (103 / 10)),
        ("wind_gust", PyVal.num (128 / 10)), ("wind_direction", PyVal.str "West"),
        ("pressure", PyVal.num (2947 / 100)), ("precip_rate", PyVal.num 0),
        ("precip_accum", PyVal.num 0), ("uv_index", PyVal.num 0),
        ("solar_radiation", PyVal.num 0) ] }

/-- C1 is false as stated: on the repository's own Weather Underground test
record the wind_direction entry of the harmonized measurements mapping is
the bare raw string "West", not a value/unit Measurement pair. -/
theorem measurement_wrapping_cex :
    (harmonize_wunderground (fun _ => Option.none) wu_sample).measurements.lookup
        "wind_direction" = some (MEntry.raw (PyVal.str "West")) ∧
    (MEntry.raw (PyVal.str "West")).is_meas = false := by
  constructor
  · with_unfolding_all decide
  · rfl

/-- C1 amended: every measurements entry produced by harmonize_infoclimat is
a value/unit Measurement pair, and every entry produced by
harmonize_wunderground except wind_direction is such a pair, while the
wind_direction entry is the raw source value copied verbatim. -/
theorem measurement_wrapping_amended (parse_ts : PyVal → Option String)
    (record : RawRecord) :
    (∀ k e, (k, e) ∈ (harmonize_infoclimat record).measurements → e.is_meas = true) ∧
    (∀ k e, (k, e) ∈ (harmonize_wunderground parse_ts record).measurements →
      k ≠ "wind_direction" → e.is_meas = true) ∧
    (harmonize_wunderground parse_ts record).measurements.lookup "wind_direction" =
      some (MEntry.raw (mget record.measurements "wind_direction")) := by
  refine ⟨?_, ?_, ?_⟩
  · intro k e h
    exact List.all_eq_true.mp
      (by rfl :
        ((harmonize_infoclimat record).measurements.all (fun kv => kv.2.is_meas)) = true)
      (k, e) h
  · intro k e h hk
    have hall := List.all_eq_true.mp
      (by rfl :
        ((harmonize_wunderground parse_ts record).measurements.all
          (fun kv => kv.1 == "wind_direction" || kv.2.is_meas)) = true)
      (k, e) h
    simp at hall
    rcases hall with hk2 | hm
    · exact absurd hk2 hk
    · exact hm
  · rfl

/-- C1 amended witness: the temperature entry of the harmonized Weather
Underground test record is a Measurement pair. -/
theorem measurement_wrapping_amended_witness :
    (MEntry.meas (create_measurement (mget wu_sample.measurements "temperature") "°C")).is_meas
      = true :=
  (measurement_wrapping_amended (fun _ => Option.none) wu_sample).2.1 "temperature"
    (MEntry.meas (create_measurement (mget wu_sample.measurements "temperature") "°C"))
    (by with_unfolding_all decide) (by decide)

/-- C4: for both harmonizer entry points, station.location_geo is non-null
exactly when both parsed coordinates are non-null, and when present it is
the GeoJSON point whose coordinates list is [longitude, latitude]. -/
theorem location_geo_invariant (parse_ts : PyVal → Option String) (record : RawRecord) :
    (((harmonize_infoclimat record).station.location_geo).isSome ↔
      ((harmonize_infoclimat record).station.location.latitude.isSome ∧
       (harmonize_infoclimat record).station.location.longitude.isSome)) ∧
    (∀ g, (harmonize_infoclimat record).station.location_geo = some g →
      ∃ la lo, (harmonize_infoclimat record).station.location.latitude = some la ∧
        (harmonize_infoclimat record).station.location.longitude = some lo ∧
        g = { type := "Point", coordinates := [lo, la] }) ∧
    (((harmonize_wunderground parse_ts record).station.location_geo).isSome ↔
      ((harmonize_wunderground parse_ts record).station.location.latitude.isSome ∧
       (harmonize_wunderground parse_ts record).station.location.longitude.isSome)) ∧
    (∀ g, (harmonize_wunderground parse_ts record).station.location_geo = some g →
      ∃ la lo, (harmonize_wunderground parse_ts record).station.location.latitude = some la ∧
        (harmonize_wunderground parse_ts record).station.location.longitude = some lo ∧
        g = { type := "Point", coordinates := [lo, la] }) := by
  cases hla : to_float record.latitude <;> cases hlo : to_float record.longitude <;>
    simp [harmonize_infoclimat, harmonize_wunderground, hla, hlo]

/-- C4 witness: the InfoClimat test record yields a GeoPoint with
coordinates [longitude, latitude]. -/
theorem location_geo_invariant_witness :
    ∃ la lo, (harmonize_infoclimat ic_sample).station.location.latitude = some la ∧
      (harmonize_infoclimat ic_sample).station.location.longitude = some lo ∧
      ({ type := "Point", coordinates := [(3092 / 1000 : Rat), (50575 / 1000 : Rat)] }
          : GeoPoint) = { type := "Point", coordinates := [lo, la] } :=
  (location_geo_invariant (fun _ => Option.none) ic_sample).2.1
    { type := "Point", coordinates := [(3092 / 1000 : Rat), (50575 / 1000 : Rat)] }
    (by with_unfolding_all decide)

/-- A syntactically valid document whose coordinates are exactly 0 (falsy in
Python, but not None). -/
def zero_coord_doc : UnifiedDocument :=
  { station :=
      { id := PyVal.str "ST0", name := PyVal.str "Null Island",
        network := PyVal.str "InfoClimat", type := PyVal.str "synop",
        location :=
          { latitude := some 0, longitude := some 0, elevation := Option.none,
            city := PyVal.none, country := PyVal.none, region := PyVal.none },
        location_geo := some { type := "Point", coordinates := [0, 0] },
        hardware := PyVal.none, software := PyVal.none },
    timestamp := PyVal.str "2024-10-05T00:00:00",
    measurements := [],
    data_quality := initial_quality }

/-- C3 is false as stated: a document whose latitude and longitude are both
0 (falsy in Python) produces no missing-required-field error at all, because
the source compares the coordinates against None only. -/
theorem required_fields_zero_coord_cex :
    zero_coord_doc.station.location.latitude = some 0 ∧
    zero_coord_doc.station.location.longitude = some 0 ∧
    validate_required_fields zero_coord_doc = [] := by
  refine ⟨rfl, rfl, ?_⟩
  with_unfolding_all decide

/-- C3 amended: a missing-required-field error is emitted for station.id,
station.name, station.network and timestamp exactly when the field is
missing or falsy, but for station.location.latitude and longitude exactly
when the field is None - a coordinate equal to 0 passes the check. -/
theorem required_fields_check (record : UnifiedDocument) :
    ("Champ obligatoire manquant: station.id" ∈ validate_required_fields record ↔
      record.station.id.truthy = false) ∧
    ("Champ obligatoire manquant: station.name" ∈ validate_required_fields record ↔
      record.station.name.truthy = false) ∧
    ("Champ obligatoire manquant: station.network" ∈ validate_required_fields record ↔
      record.station.network.truthy = false) ∧
    ("Champ obligatoire manquant: station.location.latitude" ∈
        validate_required_fields record ↔
      record.station.location.latitude = Option.none) ∧
    ("Champ obligatoire manquant: station.location.longitude" ∈
        validate_required_fields record ↔
      record.station.location.longitude = Option.none) ∧
    ("Champ obligatoire manquant: timestamp" ∈ validate_required_fields record ↔
      record.timestamp.truthy = false) := by
  unfold validate_required_fields
  refine ⟨?_, ?_, ?_, ?_, ?_, ?_⟩ <;>
    · simp only [List.mem_append]
      split_ifs <;> simp_all [Option.isNone_iff_eq_none]

/-- C2: for a document that yields no errors and at least one warning in
non-strict mode, strict mode promotes the warnings to errors: the verdict is
invalid, the error list equals the non-strict warning list, the warning list
is empty, and the document's quality annotation (written before the
promotion) still records anomalies_detected = true and
validation_passed = true. -/
theorem strict_mode_promotion (parse_iso : String → Option IsoParse) (now : Int)
    (record : UnifiedDocument)
    (h1 : (validate false parse_iso now record).1.errors = [])
    (h2 : (validate false parse_iso now record).1.warnings ≠ []) :
    (validate true parse_iso now record).1.is_valid = false ∧
    (validate true parse_iso now record).1.errors =
      (validate false parse_iso now record).1.warnings ∧
    (validate true parse_iso now record).1.warnings = [] ∧
    (validate true parse_iso now record).2.data_quality.anomalies_detected = true ∧
    (validate true parse_iso now record).2.data_quality.validation_passed = some true := by
  simp only [validate] at h1 h2 ⊢
  simp only [Bool.false_and, Bool.true_and, if_neg (by simp : ¬(false = true))] at h1 h2
  have hW : ((validate_timestamp parse_iso now record.timestamp).2 ++
      validate_measurements record.measurements) ≠ [] := h2
  have hWe : ((validate_timestamp parse_iso now record.timestamp).2 ++
      validate_measurements record.measurements).isEmpty = false := by
    simpa [List.isEmpty_iff] using hW
  simp only [hWe, Bool.not_false, if_pos rfl, h1, List.nil_append]
  refine ⟨?_, ?_, ?_, ?_, ?_⟩ <;> simp_all [List.isEmpty_iff]

/-- A document that passes all hard checks but carries one out-of-range
measurement (temperature 75 °C), so non-strict validation yields exactly one
warning and no error. -/
def warn_doc : UnifiedDocument :=
  { station :=
      { id := PyVal.str "ST1", name := PyVal.str "Hot Station",
        network := PyVal.str "InfoClimat", type := PyVal.str "synop",
        location :=
          { latitude := some 50, longitude := some 3, elevation := some 47,
            city := PyVal.none, country := PyVal.none, region := PyVal.none },
        location_geo := Option.none, hardware := PyVal.none, software := PyVal.none },
    timestamp := PyVal.str "2024-10-05T00:00:00",
    measurements := [("temperature", MEntry.meas { value := some 75, unit := "°C" })],
    data_quality := initial_quality }

/-- C2 witness: on the warn_doc document (with the ISO parse resolving to
the current instant), strict mode flips the verdict as described. -/
theorem strict_mode_promotion_witness :
    (validate true (fun _ => some { wall := 0, tzOffset := Option.none }) 0 warn_doc).1.is_valid
        = false ∧
    (validate true (fun _ => some { wall := 0, tzOffset := Option.none }) 0 warn_doc).1.errors =
      (validate false (fun _ => some { wall := 0, tzOffset := Option.none }) 0
          warn_doc).1.warnings ∧
    (validate true (fun _ => some { wall := 0, tzOffset := Option.none }) 0
        warn_doc).1.warnings = [] ∧
    (validate true (fun _ => some { wall := 0, tzOffset := Option.none }) 0
        warn_doc).2.data_quality.anomalies_detected = true ∧
    (validate true (fun _ => some { wall := 0, tzOffset := Option.none }) 0
        warn_doc).2.data_quality.validation_passed = some true :=
  strict_mode_promotion (fun _ => some { wall := 0, tzOffset := Option.none }) 0 warn_doc
    (by with_unfolding_all decide) (by with_unfolding_all decide)

/-- C7: for a present (truthy) timestamp the validator emits an error when
the parse fails, an error when the parsed instant (naive values being read
as UTC by utc_instant) lies strictly in the future, and a warning - not an
error - when it lies more than 365 days in the past; being a total function,
it always returns a result pair. -/
theorem timestamp_validation (parse_iso : String → Option IsoParse) (now : Int)
    (ts : PyVal) (hts : ts.truthy = true) :
    (parse_iso (py_str ts) = Option.none →
      validate_timestamp parse_iso now ts = (["Timestamp invalide: " ++ py_str ts], [])) ∧
    (∀ p, parse_iso (py_str ts) = some p →
      validate_timestamp parse_iso now ts =
        ((if now < utc_instant p then ["Timestamp dans le futur: " ++ py_str ts] else []),
         (if utc_instant p < now - 365 * 86400 then
            ["Timestamp ancien (> 1 an): " ++ py_str ts] else []))) := by
  constructor
  · intro hp
    simp [validate_timestamp, hts, hp]
  · intro p hp
    simp [validate_timestamp, hts, hp]

/-- C7 witness: an unparseable timestamp yields exactly the invalid-timestamp
error and no warning. -/
theorem timestamp_validation_witness :
    validate_timestamp (fun _ => Option.none) 0 (PyVal.str "garbage") =
      (["Timestamp invalide: " ++ py_str (PyVal.str "garbage")], []) :=
  (timestamp_validation (fun _ => Option.none) 0 (PyVal.str "garbage") (by decide)).1 rfl

/-- C8: on an empty document list the report is the minimal one: zeroed
summary counters, no by_station / by_network / field_completeness sections
(hence no aggregation and no division), the message flag, the echoed
execution info and the externally supplied error list. -/
theorem empty_batch_report (parse_iso : String → Option IsoParse) (utc_now : String)
    (stats : RunStats) :
    (generate_report parse_iso utc_now [] stats).summary.total_records_processed = 0 ∧
    (generate_report parse_iso utc_now [] stats).summary.records_validated = 0 ∧
    (generate_report parse_iso utc_now [] stats).summary.records_loaded = 0 ∧
    (generate_report parse_iso utc_now [] stats).summary.records_rejected = 0 ∧
    (generate_report parse_iso utc_now [] stats).by_station = Option.none ∧
    (generate_report parse_iso utc_now [] stats).by_network = Option.none ∧
    (generate_report parse_iso utc_now [] stats).field_completeness = Option.none ∧
    (generate_report parse_iso utc_now [] stats).message = some "Aucune donnée à analyser" ∧
    (generate_report parse_iso utc_now [] stats).errors = stats.errors.getD [] ∧
    (generate_report parse_iso utc_now [] stats).execution_info =
      { start_time := stats.start_time, end_time := stats.end_time,
        duration_seconds := stats.duration_seconds, timestamp := utc_now } :=
  ⟨rfl, rfl, rfl, rfl, rfl, rfl, rfl, rfl, rfl, rfl⟩

/-- Whether a measurements-mapping entry is a dict with a non-null value. -/
def filled_entry : MEntry → Bool
  | MEntry.meas m => m.value.isSome
  | MEntry.raw _ => false

lemma completeness_fold (l : List (String × MEntry)) (a b : Nat) :
    l.foldl
      (fun (tf : Nat × Nat) kv =>
        match kv.2 with
        | MEntry.meas m => (tf.1 + 1, tf.2 + (if m.value.isSome then 1 else 0))
        | MEntry.raw _ => tf) (a, b) =
      (a + l.countP (fun kv => kv.2.is_meas), b + l.countP (fun kv => filled_entry kv.2)) := by
  induction l generalizing a b with
  | nil => simp
  | cons kv rest ih =>
    rcases kv with ⟨k, e⟩
    cases e with
    | meas m =>
      by_cases hv : m.value.isSome = true
      · simp [List.countP_cons, ih, MEntry.is_meas, filled_entry, hv]
        omega
      · simp [List.countP_cons, ih, MEntry.is_meas, filled_entry, hv]
        omega
    | raw v =>
      simp [List.countP_cons, ih, MEntry.is_meas, filled_entry]

lemma countP_le_of_imp {α : Type} {p q : α → Bool} (l : List α)
    (h : ∀ a, p a = true → q a = true) : l.countP p ≤ l.countP q := by
  induction l with
  | nil => simp
  | cons x xs ih =>
    by_cases hx : p x = true
    · simp [List.countP_cons, hx, h x hx]
      omega
    · simp only [List.countP_cons]
      split_ifs <;> omega

lemma py_round_nonneg {q : Rat} (n : Nat) (h : 0 ≤ q) : 0 ≤ py_round q n := by
  unfold py_round
  dsimp only
  have hp : (0 : Rat) < (10 : Rat) ^ n := by positivity
  have hf : (0 : Int) ≤ ⌊q * (10 : Rat) ^ n⌋ :=
    Int.floor_nonneg.mpr (mul_nonneg h hp.le)
  have hf1 : (0 : Rat) ≤ ((⌊q * (10 : Rat) ^ n⌋ : Int) : Rat) := by exact_mod_cast hf
  split_ifs <;> apply div_nonneg _ hp.le <;> [exact hf1; skip; exact hf1; skip] <;>
    (push_cast; linarith)

lemma py_round_le_one {q : Rat} (n : Nat) (h : q ≤ 1) : py_round q n ≤ 1 := by
  unfold py_round
  dsimp only
  have hp : (0 : Rat) < (10 : Rat) ^ n := by positivity
  have hqp : q * (10 : Rat) ^ n ≤ (10 : Rat) ^ n := by nlinarith
  have hcast : (((10 : Nat) ^ n : Int) : Rat) = (10 : Rat) ^ n := by push_cast; ring
  have hfle : ⌊q * (10 : Rat) ^ n⌋ ≤ ((10 : Nat) ^ n : Int) := by
    have := Int.floor_le_floor hqp
    rwa [show ⌊(10 : Rat) ^ n⌋ = ((10 : Nat) ^ n : Int) by
      rw [← hcast, Int.floor_intCast]] at this
  have hsucc : ¬(q * (10 : Rat) ^ n - (⌊q * (10 : Rat) ^ n⌋ : Rat) < 1 / 2) →
      ⌊q * (10 : Rat) ^ n⌋ + 1 ≤ ((10 : Nat) ^ n : Int) := by
    intro hge
    have h5 : (⌊q * (10 : Rat) ^ n⌋ : Rat) ≤ q * (10 : Rat) ^ n - 1 / 2 := by linarith
    have h6 : (⌊q * (10 : Rat) ^ n⌋ : Rat) < (((10 : Nat) ^ n : Int) : Rat) := by
      rw [hcast]; linarith
    have h7 : ⌊q * (10 : Rat) ^ n⌋ < ((10 : Nat) ^ n : Int) := by exact_mod_cast h6
    omega
  split_ifs with h1 h2 h3
  · rw [div_le_one hp, ← hcast]
    exact_mod_cast hfle
  · rw [div_le_one hp, ← hcast]
    exact_mod_cast hsucc h1
  · rw [div_le_one hp, ← hcast]
    exact_mod_cast hfle
  · rw [div_le_one hp, ← hcast]
    exact_mod_cast hsucc h1

/-- C6: after validation the completeness score is never null; it equals
filled/total over the document's dict-valued measurement entries rounded to
3 decimals, is 0 when there is no such entry, and always lies in [0, 1]. -/
theorem completeness_score_spec (strict : Bool) (parse_iso : String → Option IsoParse)
    (now : Int) (record : UnifiedDocument) :
    (validate strict parse_iso now record).2.data_quality.completeness_score =
      some (calculate_completeness record) ∧
    0 ≤ calculate_completeness record ∧ calculate_completeness record ≤ 1 ∧
    (record.measurements.countP (fun kv => kv.2.is_meas) = 0 →
      calculate_completeness record = 0) ∧
    (record.measurements.countP (fun kv => kv.2.is_meas) ≠ 0 →
      calculate_completeness record =
        py_round
          (((record.measurements.countP (fun kv => filled_entry kv.2)) : Rat) /
            ((record.measurements.countP (fun kv => kv.2.is_meas)) : Rat)) 3) := by
  have hfold := completeness_fold record.measurements 0 0
  simp only [Nat.zero_add] at hfold
  have hcalc : calculate_completeness record =
      if record.measurements.countP (fun kv => kv.2.is_meas) = 0 then 0
      else py_round
        (((record.measurements.countP (fun kv => filled_entry kv.2)) : Rat) /
          ((record.measurements.countP (fun kv => kv.2.is_meas)) : Rat)) 3 := by
    unfold calculate_completeness
    rw [hfold]
  have hbounds : 0 ≤ calculate_completeness record ∧ calculate_completeness record ≤ 1 := by
    rw [hcalc]
    split_ifs with hz
    · exact ⟨le_refl 0, by norm_num⟩
    · have htot : (0 : Rat) < ((record.measurements.countP (fun kv => kv.2.is_meas)) : Rat) := by
        exact_mod_cast Nat.pos_of_ne_zero hz
      have hle : record.measurements.countP (fun kv => filled_entry kv.2) ≤
          record.measurements.countP (fun kv => kv.2.is_meas) := by
        apply countP_le_of_imp
        intro a ha
        cases he : a.2 with
        | meas m => simp [MEntry.is_meas]
        | raw v => rw [he] at ha; simp [filled_entry] at ha
      have hratio0 : (0 : Rat) ≤
          ((record.measurements.countP (fun kv => filled_entry kv.2)) : Rat) /
            ((record.measurements.countP (fun kv => kv.2.is_meas)) : Rat) :=
        div_nonneg (by positivity) htot.le
      have hratio1 :
          ((record.measurements.countP (fun kv => filled_entry kv.2)) : Rat) /
            ((record.measurements.countP (fun kv => kv.2.is_meas)) : Rat) ≤ 1 := by
        rw [div_le_one htot]
        exact_mod_cast hle
      exact ⟨py_round_nonneg 3 hratio0, py_round_le_one 3 hratio1⟩
  refine ⟨rfl, hbounds.1, hbounds.2, ?_, ?_⟩
  · intro hz
    rw [hcalc, if_pos hz]
  · intro hz
    rw [hcalc, if_neg hz]

/-- C6 witness: on warn_doc (one dict entry, filled) the score is the
rounded ratio of the two counts. -/
theorem completeness_score_spec_witness :
    calculate_completeness warn_doc =
      py_round
        (((warn_doc.measurements.countP (fun kv => filled_entry kv.2)) : Rat) /
          ((warn_doc.measurements.countP (fun kv => kv.2.is_meas)) : Rat)) 3 :=
  (completeness_score_spec false (fun _ => Option.none) 0 warn_doc).2.2.2.2 (by decide)

lemma filterMap_if_eq {α β : Type} (p : α → Bool) (f : α → β) (l : List α) :
    l.filterMap (fun a => if p a then some (f a) else Option.none) =
      (l.filter p).map f := by
  induction l with
  | nil => rfl
  | cons x xs ih =>
    by_cases hx : p x = true <;>
      simp [List.filterMap_cons, List.filter_cons, hx, ih]

lemma mem_enumFrom_get? {α : Type} : ∀ (l : List α) (n i : Nat) (x : α),
    (i, x) ∈ l.enumFrom n → n ≤ i ∧ l.get? (i - n) = some x := by
  intro l
  induction l with
  | nil => intro n i x h; simp [List.enumFrom] at h
  | cons y ys ih =>
    intro n i x h
    rw [show (y :: ys).enumFrom n = (n, y) :: ys.enumFrom (n + 1) from rfl] at h
    rcases List.mem_cons.mp h with heq | hmem
    · injection heq with hi hx
      subst hi; subst hx
      simp
    · obtain ⟨hle, hget⟩ := ih (n + 1) i x hmem
      refine ⟨by omega, ?_⟩
      rw [show i - n = (i - (n + 1)) + 1 by omega]
      simpa using hget

lemma mem_enum_get? {α : Type} {l : List α} {i : Nat} {x : α}
    (h : (i, x) ∈ l.enum) : l.get? i = some x := by
  have := (mem_enumFrom_get? l 0 i x h).2
  simpa using this

/-- C9: the anomalies section holds at most 100 entries; it is exactly one
entry per flagged document, in input order, truncated to the first 100; its
length is the number of flagged documents capped at 100; and each entry
carries the index of its document in the input sequence together with that
document's station id/name, timestamp, missing fields and completeness
score. -/
theorem anomalies_section_spec (records : List UnifiedDocument) :
    (detect_anomalies records).length ≤ 100 ∧
    detect_anomalies records =
      ((records.enum.filter (fun p => p.2.data_quality.anomalies_detected)).map
        (fun p => anomaly_entry p.1 p.2)).take 100 ∧
    (detect_anomalies records).length =
      min (records.enum.countP (fun p => p.2.data_quality.anomalies_detected)) 100 ∧
    (∀ e ∈ detect_anomalies records, ∃ r, records.get? e.record_index = some r ∧
      r.data_quality.anomalies_detected = true ∧ e = anomaly_entry e.record_index r) := by
  have heqfm : detect_anomalies records =
      ((records.enum.filter (fun p => p.2.data_quality.anomalies_detected)).map
        (fun p => anomaly_entry p.1 p.2)).take 100 := by
    unfold detect_anomalies
    rw [filterMap_if_eq]
  have hlen : (detect_anomalies records).length =
      min (records.enum.countP (fun p => p.2.data_quality.anomalies_detected)) 100 := by
    rw [heqfm, List.length_take, List.length_map, List.countP_eq_length_filter,
      Nat.min_comm]
  refine ⟨?_, heqfm, hlen, ?_⟩
  · rw [hlen]
    exact Nat.min_le_right _ _
  · intro e he
    rw [heqfm] at he
    have he2 := List.mem_of_mem_take he
    rcases List.mem_map.mp he2 with ⟨p, hpmem, rfl⟩
    have hpf := List.mem_filter.mp hpmem
    refine ⟨p.2, ?_, by simpa using hpf.2, rfl⟩
    exact mem_enum_get? hpf.1

/-- A flagged document with no completeness score (the quality annotation a
document would carry after a validation producing only warnings is
anomalies_detected = true; here the score is left null on purpose). -/
def anom_doc : UnifiedDocument :=
  { station :=
      { id := PyVal.str "ST2", name := PyVal.str "Windy",
        network := PyVal.str "WeatherUnderground", type := PyVal.str "amateur",
        location :=
          { latitude := some 51, longitude := some 3, elevation := Option.none,
            city := PyVal.none, country := PyVal.none, region := PyVal.none },
        location_geo := Option.none, hardware := PyVal.none, software := PyVal.none },
    timestamp := PyVal.str "2024-10-05T00:00:00",
    measurements := [("temperature", MEntry.meas { value := Option.none, unit := "°C" })],
    data_quality :=
      { completeness_score := Option.none, missing_fields := ["temperature"],
        validation_passed := some true, anomalies_detected := true } }

/-- C9 witness: the single flagged document appears as the entry with
index 0 carrying its own quality data. -/
theorem anomalies_section_spec_witness :
    ∃ r, [anom_doc].get? (anomaly_entry 0 anom_doc).record_index = some r ∧
      r.data_quality.anomalies_detected = true ∧
      anomaly_entry 0 anom_doc = anomaly_entry (anomaly_entry 0 anom_doc).record_index r :=
  (anomalies_section_spec [anom_doc]).2.2.2 (anomaly_entry 0 anom_doc)
    (by with_unfolding_all decide)

/-- Run statistics with every key absent. -/
def empty_stats : RunStats :=
  { start_time := Option.none, end_time := Option.none, duration_seconds := Option.none,
    records_extracted := Option.none, records_transformed := Option.none,
    records_validated := Option.none, records_loaded := Option.none,
    records_rejected := Option.none, errors := Option.none }

/-- C10: on a non-empty batch in which no document carries a non-null
completeness score, the data_quality_scores section is the zeroed record -
reporting validation_passed = 0 and anomalies_detected = 0 regardless of the
documents' actual flags - and omits both rate keys; as soon as one document
carries a score, the loop counters are reported and the two rates divide
them by the total number of documents. -/
theorem quality_scores_gating (parse_iso : String → Option IsoParse) (utc_now : String)
    (records : List UnifiedDocument) (stats : RunStats) (hne : records ≠ []) :
    ((∀ r ∈ records, r.data_quality.completeness_score = Option.none) →
      (generate_report parse_iso utc_now records stats).data_quality_scores =
        some { avg_completeness := 0, min_completeness := 0, max_completeness := 0,
               validation_passed := 0, validation_passed_rate := Option.none,
               anomalies_detected := 0, anomalies_rate := Option.none }) ∧
    ((∃ r ∈ records, (r.data_quality.completeness_score).isSome = true) →
      ∃ qs, (generate_report parse_iso utc_now records stats).data_quality_scores =
          some qs ∧
        qs.validation_passed =
          records.countP (fun r => r.data_quality.validation_passed.getD false) ∧
        qs.validation_passed_rate =
          some (py_round
            (((records.countP (fun r => r.data_quality.validation_passed.getD false)) : Rat) /
              ((records.length : Nat) : Rat)) 3) ∧
        qs.anomalies_detected = records.countP (fun r => r.data_quality.anomalies_detected) ∧
        qs.anomalies_rate =
          some (py_round
            (((records.countP (fun r => r.data_quality.anomalies_detected)) : Rat) /
              ((records.length : Nat) : Rat)) 3)) := by
  have hrep : (generate_report parse_iso utc_now records stats).data_quality_scores =
      some (analyze_quality_scores records) := by
    unfold generate_report
    rw [if_neg (by simpa [List.isEmpty_iff] using hne)]
  constructor
  · intro hall
    have hscores : records.filterMap (fun r => r.data_quality.completeness_score) = [] :=
      List.filterMap_eq_nil_iff.mpr hall
    rw [hrep]
    unfold analyze_quality_scores
    dsimp only
    rw [hscores]
  · rintro ⟨r, hrmem, hrsome⟩
    have hne2 : records.filterMap (fun r => r.data_quality.completeness_score) ≠ [] := by
      intro hnil
      have := List.filterMap_eq_nil_iff.mp hnil r hrmem
      rw [this] at hrsome
      cases hrsome
    rcases List.exists_cons_of_ne_nil hne2 with ⟨s, rest, hcons⟩
    rw [hrep]
    unfold analyze_quality_scores
    dsimp only
    rw [hcons]
    exact ⟨_, rfl, rfl, rfl, rfl, rfl⟩

/-- C10 witness: one flagged, validation-passing document without a score
still yields the zeroed section with both counters 0 and no rate keys. -/
theorem quality_scores_gating_witness :
    (generate_report (fun _ => Option.none) "now" [anom_doc] empty_stats).data_quality_scores =
      some { avg_completeness := 0, min_completeness := 0, max_completeness := 0,
             validation_passed := 0, validation_passed_rate := Option.none,
             anomalies_detected := 0, anomalies_rate := Option.none } :=
  (quality_scores_gating (fun _ => Option.none) "now" [anom_doc] empty_stats
      (by decide)).1 (by decide)

end Forecast
